import Mathlib

/-!
Shallow embedding of the Flask blog application in `main.py`.

The relational state (tables `user`, `blog_posts`, `comments`) is modelled
as lists of rows with explicit auto-increment counters.  Each route handler
of `main.py` becomes a pure function from (form data, session, database) to
a `RequestResult` carrying the HTTP response, the updated database, the
updated session and the flashed messages.  External collaborators (form
validation, the password-hashing primitive, templating) are modelled at the
level of their documented contracts, as the specification directs.
-/

namespace Blog

/-- A row of the `user` table (`class User`, main.py). -/
structure User where
  id : Nat
  name : String
  email : String
  password : String
deriving DecidableEq, Repr

/-- The value held by the `BlogPost.author` relationship attribute,
kept consistent with the `author_id` column.  No committed state ever
holds anything else: `edit_post`'s attempt to assign a plain string to
this relationship (`post.author = current_user.name`, main.py line 236)
raises `AttributeError` before anything is stored — see
`edit_post_inner`. -/
inductive AuthorField where
  | ref (userId : Nat)
deriving DecidableEq, Repr

/-- A row of the `blog_posts` table (`class BlogPost`, main.py).
`author_id` is a foreign key column without `nullable=False`, hence
`Option Nat`. -/
structure BlogPost where
  id : Nat
  title : String
  subtitle : String
  date : String
  body : String
  img_url : String
  author_id : Option Nat
  author : AuthorField
deriving DecidableEq, Repr

/-- A row of the `comments` table (`class Comment`, main.py).  Both foreign
key columns lack `nullable=False`, hence `Option Nat`. -/
structure Comment where
  id : Nat
  comment_text : String
  author_id : Option Nat
  blogpost_id : Option Nat
deriving DecidableEq, Repr

/-- The relational database: the three tables plus the auto-increment
counters for their integer primary keys. -/
structure DB where
  users : List User
  posts : List BlogPost
  comments : List Comment
  nextUserId : Nat
  nextPostId : Nat
  nextCommentId : Nat
deriving DecidableEq, Repr

/-- Data submitted through `RegisterForm`; `valid` is the outcome of
`form.validate_on_submit()` (form validation is an external collaborator,
modelled by its boolean verdict). -/
structure RegisterForm where
  name : String
  email : String
  password : String
  valid : Bool
deriving DecidableEq, Repr

/-- Data submitted through `LoginForm`. -/
structure LoginForm where
  email : String
  password : String
  valid : Bool
deriving DecidableEq, Repr

/-- Data submitted through `CreatePostForm`. -/
structure CreatePostForm where
  title : String
  subtitle : String
  img_url : String
  body : String
  valid : Bool
deriving DecidableEq, Repr

/-- Data submitted through `CommentForm`. -/
structure CommentForm where
  comment_text : String
  valid : Bool
deriving DecidableEq, Repr

/-- Redirect targets used via `url_for` in main.py. -/
inductive Route where
  | getAllPosts
  | loginPage
  | showPost (id : Nat)
deriving DecidableEq, Repr

/-- The outcome of a request: a redirect, a rendered template, an HTTP
error produced by `abort`/`get_or_404`, or an uncaught Python exception
(which Flask surfaces as an HTTP 500 internal server error). -/
inductive Response where
  | redirectTo (r : Route)
  | renderPage (template : String)
  | httpError (code : Nat)
  | serverError (msg : String)
deriving DecidableEq, Repr

/-- The full effect of one request: response, resulting database state,
resulting session (the logged-in user id, if any) and flashed messages. -/
structure RequestResult where
  response : Response
  db : DB
  session : Option Nat
  flashes : List String
deriving DecidableEq, Repr

/-- The ambient `current_user` of flask_login: either the
`AnonymousUserMixin` sentinel or a loaded `User` row. -/
inductive CurrentUser where
  | anonymous
  | user (u : User)
deriving DecidableEq, Repr

/-- `current_user.is_authenticated`: `False` on `AnonymousUserMixin`,
`True` on any `UserMixin` instance. -/
def is_authenticated : CurrentUser → Bool
  | .anonymous => false
  | .user _ => true

/-- Hex digit characters, used by the digest stand-in below. -/
def hexChar (n : Nat) : Char :=
  if n < 10 then Char.ofNat (48 + n) else Char.ofNat (87 + n)

/-- Two-hex-digit expansion of a character list. -/
def hexExpand : List Char → List Char
  | [] => []
  | c :: cs => hexChar (c.toNat / 16 % 16) :: hexChar (c.toNat % 16 % 16) :: hexExpand cs

/-- Executable stand-in for the PBKDF2 digest of werkzeug (an external
black-box primitive per the specification): a deterministic hex string
determined by the salt and the password.  Only the properties the routes
rely on matter here: determinism, and that the derived hash string is
never the plaintext password. -/
def pbkdf2_digest (salt password : String) : String :=
  String.mk (hexExpand (salt ++ password).toList)

/-- `werkzeug.security.generate_password_hash` with `method='pbkdf2:sha256'`:
produces the string `method$salt$digest` for a freshly drawn `salt`. -/
def generate_password_hash (method salt password : String) : String :=
  method ++ "$" ++ salt ++ "$" ++ pbkdf2_digest salt password

/-- Split of a character list at every occurrence of a separator, the
semantics of Python's `str.split(sep)`. -/
def splitOnChar (sep : Char) : List Char → List (List Char)
  | [] => [[]]
  | c :: cs =>
    match splitOnChar sep cs with
    | [] => if c == sep then [[], []] else [[c]]
    | r :: rs => if c == sep then [] :: r :: rs else (c :: r) :: rs

/-- `werkzeug.security.check_password_hash`: splits the stored value into
`method$salt$digest` and recomputes the digest of the candidate password. -/
def check_password_hash (pwhash password : String) : Bool :=
  match (splitOnChar (Char.ofNat 36) pwhash.data).map String.mk with
  | [_, salt, digest] => digest == pbkdf2_digest salt password
  | _ => false

/-- A calendar date, standing for `datetime.date.today()`. -/
structure Date where
  year : Nat
  month : Nat
  day : Nat
deriving DecidableEq, Repr

/-- Full English month name, as produced by `strftime("%B")`. -/
def month_name : Nat → String
  | 1 => "January"
  | 2 => "February"
  | 3 => "March"
  | 4 => "April"
  | 5 => "May"
  | 6 => "June"
  | 7 => "July"
  | 8 => "August"
  | 9 => "September"
  | 10 => "October"
  | 11 => "November"
  | 12 => "December"
  | _ => ""

/-- Zero-padded two-digit rendering, as produced by `strftime("%d")`. -/
def pad2 (n : Nat) : String :=
  if n < 10 then "0" ++ toString n else toString n

/-- `date.today().strftime("%B %d, %Y")` (main.py line 212). -/
def strftime_B_d_Y (d : Date) : String :=
  month_name d.month ++ " " ++ pad2 d.day ++ ", " ++ toString d.year

/-- `db.select(User).where(User.email == ...)` followed by `.scalar()`:
the first `user` row with the given email, if any. -/
def find_user_by_email (db : DB) (email : String) : Option User :=
  db.users.find? (fun u => u.email == email)

/-- `db.get_or_404(BlogPost, post_id)` as a partial lookup: the row of
`blog_posts` with the given primary key, if any. -/
def get_post (db : DB) (post_id : Nat) : Option BlogPost :=
  db.posts.find? (fun p => p.id == post_id)

/-- The `load_user` user-loader callback (main.py lines 83-85):
`db.get_or_404(User, user_id)` returns the row or aborts the request with
HTTP 404 — it never falls back to an anonymous user. -/
def load_user (db : DB) (user_id : Nat) : Except Nat User :=
  match db.users.find? (fun u => u.id == user_id) with
  | some u => .ok u
  | none => .error 404

/-- Resolution of flask_login's `current_user` from the session: an empty
session yields the anonymous sentinel; a session holding a user id goes
through `load_user`, which aborts with 404 when the id no longer resolves.
(flask_login resolves `current_user` lazily on first access; every handler
in main.py accesses it on every path, so the resolution is performed up
front here.) -/
def getCurrentUser (db : DB) (sess : Option Nat) : Except Nat CurrentUser :=
  match sess with
  | none => .ok .anonymous
  | some uid => (load_user db uid).map .user

/-- The message of the `AttributeError` raised when `current_user.id` is
evaluated on the `AnonymousUserMixin` sentinel, which has no `id`
attribute. -/
def attributeError_msg : String :=
  "AttributeError: \x27AnonymousUserMixin\x27 object has no attribute \x27id\x27"

/-- The `admin_required` decorator (main.py lines 88-99).  The guard is
`if current_user.id != 1 or not current_user.is_authenticated: abort(403)`.
Python evaluates `current_user.id` first; on an anonymous request this
raises `AttributeError` (`AnonymousUserMixin` has no `id` attribute), so
the anonymous branch produces an uncaught-exception response rather than
reaching the 403. -/
def admin_required (func : User → DB → Option Nat → RequestResult)
    (cu : CurrentUser) (db : DB) (sess : Option Nat) : RequestResult :=
  match cu with
  | .anonymous => ⟨.serverError attributeError_msg, db, sess, []⟩
  | .user u =>
    if u.id != 1 || !(is_authenticated (.user u)) then
      ⟨.httpError 403, db, sess, []⟩
    else
      func u db sess

/-- Flash message for a duplicate registration email (main.py line 116). -/
def duplicate_user_msg : String := "User already exists - please sign in."

/-- The `/register` route (main.py lines 102-132).  `salt` is the random
salt drawn by `generate_password_hash` (salt_length=8). -/
def register (form : RegisterForm) (salt : String) (sess : Option Nat)
    (db : DB) : RequestResult :=
  match getCurrentUser db sess with
  | .error code => ⟨.httpError code, db, sess, []⟩
  | .ok cu =>
    if is_authenticated cu then
      ⟨.redirectTo .getAllPosts, db, sess, []⟩
    else if form.valid then
      match find_user_by_email db form.email with
      | some _ =>
        ⟨.redirectTo .loginPage, db, sess, [duplicate_user_msg]⟩
      | none =>
        let hashed_password := generate_password_hash "pbkdf2:sha256" salt form.password
        let new_user : User :=
          { id := db.nextUserId, name := form.name, email := form.email,
            password := hashed_password }
        ⟨.redirectTo .getAllPosts,
         { db with users := db.users ++ [new_user], nextUserId := db.nextUserId + 1 },
         some new_user.id, []⟩
    else
      ⟨.renderPage "register.html", db, sess, []⟩

/-- Flash message for a failed login (main.py line 154). -/
def login_fail_msg : String := "... Can\x27t log you in sorry babes."

/-- The `/login` route (main.py lines 135-156). -/
def login (form : LoginForm) (sess : Option Nat) (db : DB) : RequestResult :=
  match getCurrentUser db sess with
  | .error code => ⟨.httpError code, db, sess, []⟩
  | .ok cu =>
    if is_authenticated cu then
      ⟨.redirectTo .getAllPosts, db, sess, []⟩
    else if form.valid then
      match find_user_by_email db form.email with
      | some user_found =>
        if check_password_hash user_found.password form.password then
          ⟨.redirectTo .getAllPosts, db, some user_found.id, []⟩
        else
          ⟨.renderPage "login.html", db, sess, [login_fail_msg]⟩
      | none =>
        ⟨.renderPage "login.html", db, sess, [login_fail_msg]⟩
    else
      ⟨.renderPage "login.html", db, sess, []⟩

/-- Flash message for an anonymous comment attempt (main.py line 195). -/
def comment_login_msg : String := "... Please login to post a comment."

/-- The comments displayed on the page of one post: the rows of the
`comments` table whose `blogpost_id` references it (the
`BlogPost.comments` relationship). -/
def post_comments (db : DB) (post_id : Nat) : List Comment :=
  db.comments.filter (fun c => c.blogpost_id == some post_id)

/-- The `/post/<int:post_id>` route (main.py lines 173-198): shows a post
and accepts comment submissions. -/
def show_post (post_id : Nat) (form : CommentForm) (sess : Option Nat)
    (db : DB) : RequestResult :=
  match getCurrentUser db sess with
  | .error code => ⟨.httpError code, db, sess, []⟩
  | .ok cu =>
    match get_post db post_id with
    | none => ⟨.httpError 404, db, sess, []⟩
    | some requested_post =>
      if form.valid then
        match cu with
        | .user u =>
          let new_comment : Comment :=
            { id := db.nextCommentId, comment_text := form.comment_text,
              author_id := some u.id, blogpost_id := some requested_post.id }
          ⟨.redirectTo (.showPost requested_post.id),
           { db with comments := db.comments ++ [new_comment],
                     nextCommentId := db.nextCommentId + 1 },
           sess, []⟩
        | .anonymous =>
          ⟨.redirectTo .loginPage, db, sess, [comment_login_msg]⟩
      else
        ⟨.renderPage "post.html", db, sess, []⟩

/-- Body of the `/new-post` route (main.py lines 201-217), run after the
`admin_required` gate. -/
def add_new_post_inner (form : CreatePostForm) (today : Date) (u : User)
    (db : DB) (sess : Option Nat) : RequestResult :=
  if form.valid then
    let new_post : BlogPost :=
      { id := db.nextPostId, title := form.title, subtitle := form.subtitle,
        date := strftime_B_d_Y today, body := form.body, img_url := form.img_url,
        author_id := some u.id, author := .ref u.id }
    ⟨.redirectTo .getAllPosts,
     { db with posts := db.posts ++ [new_post], nextPostId := db.nextPostId + 1 },
     sess, []⟩
  else
    ⟨.renderPage "make-post.html", db, sess, []⟩

/-- The `/new-post` route with its `admin_required` gate. -/
def add_new_post (form : CreatePostForm) (today : Date) (sess : Option Nat)
    (db : DB) : RequestResult :=
  match getCurrentUser db sess with
  | .error code => ⟨.httpError code, db, sess, []⟩
  | .ok cu => admin_required (add_new_post_inner form today) cu db sess

/-- The message of the `AttributeError` raised when a plain string is
assigned to a `back_populates` relationship: the set-event calls
`instance_state` on the assigned value, and a `str` has no
`_sa_instance_state`. -/
def sa_instance_state_msg : String :=
  "AttributeError: \x27str\x27 object has no attribute \x27_sa_instance_state\x27"

/-- Body of the `/edit-post/<int:post_id>` route (main.py lines 221-240),
run after the `admin_required` gate.  On a valid submission, lines
233-235 mutate the in-memory object, then line 236
(`post.author = current_user.name`) assigns a plain string to the
`back_populates` relationship `author`: SQLAlchemy's set-event calls
`instance_state` on the value and raises `AttributeError` immediately.
Line 237's body assignment and line 238's `db.session.commit()` never
run, Flask answers with an internal server error, and the uncommitted
in-memory changes are rolled back at request teardown — the database is
left unchanged. -/
def edit_post_inner (post_id : Nat) (edit_form : CreatePostForm) (_u : User)
    (db : DB) (sess : Option Nat) : RequestResult :=
  match get_post db post_id with
  | none => ⟨.httpError 404, db, sess, []⟩
  | some _post =>
    if edit_form.valid then
      ⟨.serverError sa_instance_state_msg, db, sess, []⟩
    else
      ⟨.renderPage "make-post.html", db, sess, []⟩

/-- The `/edit-post/<int:post_id>` route with its `admin_required` gate. -/
def edit_post (post_id : Nat) (edit_form : CreatePostForm) (sess : Option Nat)
    (db : DB) : RequestResult :=
  match getCurrentUser db sess with
  | .error code => ⟨.httpError code, db, sess, []⟩
  | .ok cu => admin_required (edit_post_inner post_id edit_form) cu db sess

/-- Dependent-row adjustment performed by the ORM when a `BlogPost` is
deleted: the relationship `BlogPost.comments` carries no delete cascade,
so SQLAlchemy's default cascade nullifies the (nullable) foreign key
`comments.blogpost_id` of the dependent rows instead of deleting them. -/
def detach_comment (post_id : Nat) (c : Comment) : Comment :=
  if c.blogpost_id == some post_id then { c with blogpost_id := none } else c

/-- Body of the `/delete/<int:post_id>` route (main.py lines 244-250), run
after the `admin_required` gate: `db.get_or_404` then `db.session.delete`
of that row (a primary-key delete) and commit. -/
def delete_post_inner (post_id : Nat) (_u : User) (db : DB)
    (sess : Option Nat) : RequestResult :=
  match get_post db post_id with
  | none => ⟨.httpError 404, db, sess, []⟩
  | some post_to_delete =>
    ⟨.redirectTo .getAllPosts,
     { db with posts := db.posts.filter (fun q => !(q.id == post_to_delete.id)),
               comments := db.comments.map (detach_comment post_to_delete.id) },
     sess, []⟩

/-- The `/delete/<int:post_id>` route with its `admin_required` gate. -/
def delete_post (post_id : Nat) (sess : Option Nat) (db : DB) : RequestResult :=
  match getCurrentUser db sess with
  | .error code => ⟨.httpError code, db, sess, []⟩
  | .ok cu => admin_required (delete_post_inner post_id) cu db sess

/-! Concrete fixtures used by the closed theorems and witnesses. -/

/-- The administrator account (identifier 1). -/
def alice : User :=
  { id := 1, name := "Alice", email := "alice@example.com", password := "x" }

/-- A non-admin registered user (identifier 2). -/
def bob : User :=
  { id := 2, name := "Bob", email := "bob@example.com", password := "y" }

/-- An existing blog post authored by the administrator. -/
def post1 : BlogPost :=
  { id := 1, title := "T", subtitle := "S", date := "January 01, 2024",
    body := "B", img_url := "U", author_id := some 1, author := .ref 1 }

/-- An existing comment by Bob on `post1`. -/
def comment1 : Comment :=
  { id := 1, comment_text := "Nice", author_id := some 2, blogpost_id := some 1 }

/-- A concrete database state: two users, one post, one comment. -/
def db1 : DB :=
  { users := [alice, bob], posts := [post1], comments := [comment1],
    nextUserId := 3, nextPostId := 2, nextCommentId := 2 }

/-- A valid create/edit form submission. -/
def cform1 : CreatePostForm :=
  { title := "T2", subtitle := "S2", img_url := "U2", body := "B2", valid := true }

/-- A concrete server date. -/
def today1 : Date := { year := 2024, month := 1, day := 2 }

/-- A duplicate-email registration attempt reusing Bob's email. -/
def regform_dup : RegisterForm :=
  { name := "Bobby", email := "bob@example.com", password := "pw2", valid := true }

/-- A registration with an email absent from `db1`. -/
def regform_fresh : RegisterForm :=
  { name := "Carol", email := "carol@example.com", password := "pw3", valid := true }

/-- A login attempt with an unknown email. -/
def lform_unknown : LoginForm :=
  { email := "nobody@example.com", password := "pw", valid := true }

/-- A login attempt with Bob's email but a wrong password. -/
def lform_wrongpw : LoginForm :=
  { email := "bob@example.com", password := "wrong", valid := true }

/-- A valid comment submission. -/
def commform1 : CommentForm := { comment_text := "Great post", valid := true }

/-! Claim theorems. -/

/-- Claim C1 (divergence exhibit): on the concrete state `db1`, an
anonymous request to each post-mutation route (`/new-post`,
`/edit-post/1`, `/delete/1`) raises `AttributeError` — surfaced as an
HTTP 500 internal server error, not the Forbidden 403 the claim states —
because `admin_required` evaluates `current_user.id` before checking
`is_authenticated` and `AnonymousUserMixin` has no `id` attribute.  No
table is mutated in any of these cases, and a non-admin authenticated
caller (Bob, id 2) does receive 403 with no mutation. -/
theorem C1_anonymous_not_forbidden :
    ((add_new_post cform1 today1 none db1).response = .serverError attributeError_msg
      ∧ (add_new_post cform1 today1 none db1).response ≠ .httpError 403
      ∧ (add_new_post cform1 today1 none db1).db = db1)
    ∧ ((edit_post 1 cform1 none db1).response = .serverError attributeError_msg
      ∧ (edit_post 1 cform1 none db1).db = db1)
    ∧ ((delete_post 1 none db1).response = .serverError attributeError_msg
      ∧ (delete_post 1 none db1).db = db1)
    ∧ ((add_new_post cform1 today1 (some 2) db1).response = .httpError 403
      ∧ (add_new_post cform1 today1 (some 2) db1).db = db1)
    ∧ ((edit_post 1 cform1 (some 2) db1).response = .httpError 403
      ∧ (edit_post 1 cform1 (some 2) db1).db = db1)
    ∧ ((delete_post 1 (some 2) db1).response = .httpError 403
      ∧ (delete_post 1 (some 2) db1).db = db1) := by
  decide

/-- Claim C6: a registration submission by an anonymous caller whose email
already exists in the `user` table creates no User row (the whole database
is unchanged), and responds with a redirect to `/login` carrying the
user-facing notice. -/
theorem C6_register_duplicate (form : RegisterForm) (salt : String) (db : DB)
    (u0 : User) (hv : form.valid = true)
    (hdup : find_user_by_email db form.email = some u0) :
    register form salt none db
      = ⟨.redirectTo .loginPage, db, none, [duplicate_user_msg]⟩ := by
  simp [register, getCurrentUser, is_authenticated, hv, hdup]

theorem C6_register_duplicate_witness :
    regform_dup.valid = true
    ∧ find_user_by_email db1 regform_dup.email = some bob
    ∧ register regform_dup "saltsalt" none db1
        = ⟨.redirectTo .loginPage, db1, none, [duplicate_user_msg]⟩ :=
  ⟨rfl, by decide, C6_register_duplicate regform_dup "saltsalt" db1 bob rfl (by decide)⟩

/-- Claim C7: a login submission by an unauthenticated caller whose email
matches no User row, or whose password fails the stored-hash check,
leaves the caller unauthenticated (the session stays empty) and flashes
the single generic failure message — the very same response in both
failure cases, so they are indistinguishable. -/
theorem C7_login_failure (form : LoginForm) (db : DB) (hv : form.valid = true)
    (hfail : find_user_by_email db form.email = none
      ∨ ∃ u0, find_user_by_email db form.email = some u0
          ∧ check_password_hash u0.password form.password = false) :
    login form none db = ⟨.renderPage "login.html", db, none, [login_fail_msg]⟩ := by
  rcases hfail with hnone | ⟨u0, hu0, hchk⟩
  · simp [login, getCurrentUser, is_authenticated, hv, hnone]
  · simp [login, getCurrentUser, is_authenticated, hv, hu0, hchk]

theorem C7_login_failure_witness :
    (find_user_by_email db1 lform_unknown.email = none
      ∧ login lform_unknown none db1
          = ⟨.renderPage "login.html", db1, none, [login_fail_msg]⟩)
    ∧ (find_user_by_email db1 lform_wrongpw.email = some bob
      ∧ check_password_hash bob.password lform_wrongpw.password = false
      ∧ login lform_wrongpw none db1
          = ⟨.renderPage "login.html", db1, none, [login_fail_msg]⟩) :=
  ⟨⟨by decide, C7_login_failure lform_unknown db1 rfl (Or.inl (by decide))⟩,
   ⟨by decide, by decide,
    C7_login_failure lform_wrongpw db1 rfl (Or.inr ⟨bob, by decide, by decide⟩)⟩⟩

/-- Claim C9: when the session stores a user identifier matching no row of
the `user` table, `load_user` fails hard with HTTP 404, and so does the
resolution of `current_user` — it never falls back to the anonymous
user. -/
theorem C9_stale_session (db : DB) (uid : Nat)
    (hmissing : ∀ u ∈ db.users, u.id ≠ uid) :
    load_user db uid = .error 404
    ∧ getCurrentUser db (some uid) = .error 404
    ∧ getCurrentUser db (some uid) ≠ .ok .anonymous := by
  have hfind : db.users.find? (fun u => u.id == uid) = none := by
    rw [List.find?_eq_none]
    intro u hu
    simpa using hmissing u hu
  refine ⟨by simp [load_user, hfind],
    by simp [getCurrentUser, load_user, hfind, Except.map], ?_⟩
  simp [getCurrentUser, load_user, hfind, Except.map]

/-- Helper: `hexExpand` doubles the length of its input. -/
theorem hexExpand_length (l : List Char) : (hexExpand l).length = 2 * l.length := by
  induction l with
  | nil => rfl
  | cons c cs ih =>
    simp [hexExpand, ih]
    omega

/-- Helper: the digest stand-in has twice the combined length of salt and
password. -/
theorem pbkdf2_digest_length (salt password : String) :
    (pbkdf2_digest salt password).length = 2 * (salt.length + password.length) := by
  have h1 : (pbkdf2_digest salt password).length
      = (hexExpand (salt ++ password).toList).length := rfl
  rw [h1, hexExpand_length]
  have h2 : (salt ++ password).toList.length = (salt ++ password).length := rfl
  rw [h2, String.length_append]

/-- Helper: the derived password hash is never the plaintext password:
it is strictly longer. -/
theorem generate_password_hash_ne_password (salt password : String) :
    generate_password_hash "pbkdf2:sha256" salt password ≠ password := by
  intro h
  have hl := congrArg String.length h
  simp only [generate_password_hash, String.length_append, pbkdf2_digest_length] at hl
  have h13 : ("pbkdf2:sha256" : String).length = 13 := rfl
  have hd : ("$" : String).length = 1 := rfl
  rw [h13, hd] at hl
  omega

/-- Claim C2: a registration submission by an anonymous caller whose email
is not yet in the `user` table inserts exactly one new User row; its
stored password is the salted derived hash of the submitted password and
never the plaintext; and the caller ends up authenticated as that new
user (the resulting session holds the new row's identifier). -/
theorem C2_register_fresh (form : RegisterForm) (salt : String) (db : DB)
    (hv : form.valid = true)
    (hfresh : find_user_by_email db form.email = none) :
    (register form salt none db).db.users
        = db.users ++ [{ id := db.nextUserId, name := form.name, email := form.email,
                         password := generate_password_hash "pbkdf2:sha256" salt form.password }]
    ∧ (register form salt none db).db.users.length = db.users.length + 1
    ∧ generate_password_hash "pbkdf2:sha256" salt form.password ≠ form.password
    ∧ (register form salt none db).session = some db.nextUserId := by
  refine ⟨?_, ?_, generate_password_hash_ne_password salt form.password, ?_⟩ <;>
    simp [register, getCurrentUser, is_authenticated, hv, hfresh]

theorem C2_register_fresh_witness :
    regform_fresh.valid = true
    ∧ find_user_by_email db1 regform_fresh.email = none
    ∧ ((register regform_fresh "abcd1234" none db1).db.users
        = db1.users ++ [{ id := db1.nextUserId, name := regform_fresh.name,
                          email := regform_fresh.email,
                          password := generate_password_hash "pbkdf2:sha256" "abcd1234"
                            regform_fresh.password }]
      ∧ (register regform_fresh "abcd1234" none db1).db.users.length = db1.users.length + 1
      ∧ generate_password_hash "pbkdf2:sha256" "abcd1234" regform_fresh.password
          ≠ regform_fresh.password
      ∧ (register regform_fresh "abcd1234" none db1).session = some db1.nextUserId) :=
  ⟨rfl, by decide, C2_register_fresh regform_fresh "abcd1234" db1 rfl (by decide)⟩

/-- Claim C3: a comment submission on the page of an existing post: an
anonymous caller causes no Comment row (the database is unchanged, the
response is a redirect to `/login`); an authenticated caller causes
exactly one new Comment row linking that user and that post, the response
redirects back to the same post view, and the new comment is among the
comments displayed there. -/
theorem C3_comment_flow (post_id : Nat) (p : BlogPost) (form : CommentForm)
    (sess : Option Nat) (db : DB)
    (hp : get_post db post_id = some p) (hv : form.valid = true) :
    (sess = none →
      show_post post_id form sess db
        = ⟨.redirectTo .loginPage, db, none, [comment_login_msg]⟩)
    ∧ (∀ u : User, getCurrentUser db sess = .ok (.user u) →
        (show_post post_id form sess db).db.comments
          = db.comments ++ [{ id := db.nextCommentId, comment_text := form.comment_text,
                              author_id := some u.id, blogpost_id := some post_id }]
        ∧ (show_post post_id form sess db).response = .redirectTo (.showPost post_id)
        ∧ ({ id := db.nextCommentId, comment_text := form.comment_text,
             author_id := some u.id, blogpost_id := some post_id } : Comment)
            ∈ post_comments (show_post post_id form sess db).db post_id) := by
  have hpid : p.id = post_id := by simpa using List.find?_some hp
  constructor
  · intro hsess
    subst hsess
    simp [show_post, getCurrentUser, hp, hv, hpid]
  · intro u hcu
    refine ⟨?_, ?_, ?_⟩ <;>
      simp [show_post, hcu, hp, hv, hpid, post_comments, List.filter_append]

theorem C3_comment_flow_witness :
    get_post db1 1 = some post1
    ∧ commform1.valid = true
    ∧ (show_post 1 commform1 none db1
        = ⟨.redirectTo .loginPage, db1, none, [comment_login_msg]⟩)
    ∧ (getCurrentUser db1 (some 2) = .ok (.user bob)
      ∧ (show_post 1 commform1 (some 2) db1).db.comments
          = db1.comments ++ [{ id := db1.nextCommentId,
                               comment_text := commform1.comment_text,
                               author_id := some bob.id, blogpost_id := some 1 }]
      ∧ (show_post 1 commform1 (some 2) db1).response = .redirectTo (.showPost 1)
      ∧ ({ id := db1.nextCommentId, comment_text := commform1.comment_text,
           author_id := some bob.id, blogpost_id := some 1 } : Comment)
          ∈ post_comments (show_post 1 commform1 (some 2) db1).db 1) :=
  ⟨by decide, rfl,
   (C3_comment_flow 1 post1 commform1 none db1 (by decide) rfl).1 rfl,
   rfl,
   (C3_comment_flow 1 post1 commform1 (some 2) db1 (by decide) rfl).2 bob rfl⟩

/-- Helper: a formatted publication date is never the empty string. -/
theorem strftime_B_d_Y_ne_empty (d : Date) : strftime_B_d_Y d ≠ "" := by
  intro h
  have hl := congrArg String.length h
  simp only [strftime_B_d_Y, String.length_append] at hl
  have h1 : (" " : String).length = 1 := rfl
  have h2 : (", " : String).length = 2 := rfl
  have h0 : ("" : String).length = 0 := rfl
  rw [h1, h2, h0] at hl
  omega

/-- Claim C4: a post created through the create-post flow by the
administrator with title, subtitle, body and image URL from the form is
retrievable by its identifier with exactly those field values, a
publication date equal to the formatted server date at submission time
(and non-empty), and the administrator (user 1) as author. -/
theorem C4_create_roundtrip (form : CreatePostForm) (today : Date)
    (sess : Option Nat) (db : DB) (u : User)
    (hcu : getCurrentUser db sess = .ok (.user u)) (hadmin : u.id = 1)
    (hv : form.valid = true)
    (hfreshid : ∀ p ∈ db.posts, p.id ≠ db.nextPostId) :
    get_post (add_new_post form today sess db).db db.nextPostId
      = some { id := db.nextPostId, title := form.title, subtitle := form.subtitle,
               date := strftime_B_d_Y today, body := form.body, img_url := form.img_url,
               author_id := some 1, author := .ref 1 }
    ∧ strftime_B_d_Y today ≠ "" := by
  refine ⟨?_, strftime_B_d_Y_ne_empty today⟩
  have hnone : db.posts.find? (fun p => p.id == db.nextPostId) = none := by
    rw [List.find?_eq_none]
    intro p hpmem
    simpa using hfreshid p hpmem
  simp [add_new_post, hcu, admin_required, hadmin, is_authenticated,
    add_new_post_inner, hv, get_post, List.find?_append, hnone]

theorem C4_create_roundtrip_witness :
    getCurrentUser db1 (some 1) = .ok (.user alice)
    ∧ alice.id = 1
    ∧ cform1.valid = true
    ∧ (∀ p ∈ db1.posts, p.id ≠ db1.nextPostId)
    ∧ (get_post (add_new_post cform1 today1 (some 1) db1).db db1.nextPostId
        = some { id := db1.nextPostId, title := cform1.title, subtitle := cform1.subtitle,
                 date := strftime_B_d_Y today1, body := cform1.body,
                 img_url := cform1.img_url, author_id := some 1, author := .ref 1 }
      ∧ strftime_B_d_Y today1 ≠ "") :=
  ⟨rfl, rfl, rfl, by decide,
   C4_create_roundtrip cform1 today1 (some 1) db1 alice rfl rfl rfl (by decide)⟩

/-- Claim C5 (divergence exhibit): on the concrete state `db1`, a valid
edit submission by the administrator on the existing post 1 overwrites
nothing at all: line 236's assignment of the display-name string to the
`author` relationship raises `AttributeError` before the body assignment
and the commit, so the route answers with an internal server error and
the database — the post row included, its title still the original and
not the form's — is exactly the prior state. -/
theorem C5_edit_submission_crashes :
    get_post db1 1 = some post1
    ∧ cform1.valid = true
    ∧ (edit_post 1 cform1 (some 1) db1).response = .serverError sa_instance_state_msg
    ∧ (edit_post 1 cform1 (some 1) db1).response ≠ .redirectTo (.showPost 1)
    ∧ (edit_post 1 cform1 (some 1) db1).db = db1
    ∧ get_post (edit_post 1 cform1 (some 1) db1).db 1 = some post1
    ∧ post1.title ≠ cform1.title := by
  decide

theorem C9_stale_session_witness :
    (∀ u ∈ db1.users, u.id ≠ 99)
    ∧ (load_user db1 99 = .error 404
      ∧ getCurrentUser db1 (some 99) = .error 404
      ∧ getCurrentUser db1 (some 99) ≠ .ok .anonymous) :=
  ⟨by decide, C9_stale_session db1 99 (by decide)⟩

/-- Helper: removing the rows carrying a primary key that occurs in a
table with pairwise-distinct ids, and is carried by some row, shortens
the table by exactly one row. -/
theorem length_filter_erase_id (post_id : Nat) (l : List BlogPost)
    (hnd : (l.map BlogPost.id).Nodup) (p : BlogPost) (hmem : p ∈ l)
    (hid : p.id = post_id) :
    (l.filter (fun q => !(q.id == post_id))).length + 1 = l.length := by
  induction l with
  | nil => cases hmem
  | cons h t ih =>
    rw [List.map_cons, List.nodup_cons] at hnd
    by_cases hh : h.id = post_id
    · have hfilters : t.filter (fun q => !(q.id == post_id)) = t := by
        apply List.filter_eq_self.mpr
        intro a ha
        have hane : a.id ≠ post_id := by
          intro hae
          exact hnd.1 (by
            rw [hh, ← hae]
            exact List.mem_map_of_mem BlogPost.id ha)
        simp [hane]
      simp [List.filter_cons, hh, hfilters]
    · have hmem' : p ∈ t := by
        cases hmem with
        | head => exact absurd hid hh
        | tail _ hmem' => exact hmem'
      have := ih hnd.2 hmem'
      simp only [List.filter_cons, List.length_cons]
      have hkeep : (!(h.id == post_id)) = true := by simp [hh]
      rw [hkeep]
      simp only [if_true, List.length_cons]
      omega

/-- Claim C8: the delete route invoked by the administrator: a missing
post identifier yields HTTP 404 with the database untouched; an existing
identifier yields a redirect to the post list, the posts table afterwards
holds exactly the rows whose identifier differs from the deleted one,
and (the primary keys being pairwise distinct) exactly one row is
gone. -/
theorem C8_delete_post (post_id : Nat) (sess : Option Nat) (db : DB) (u : User)
    (hcu : getCurrentUser db sess = .ok (.user u)) (hadmin : u.id = 1)
    (hnd : (db.posts.map BlogPost.id).Nodup) :
    (get_post db post_id = none →
      (delete_post post_id sess db).response = .httpError 404
      ∧ (delete_post post_id sess db).db = db)
    ∧ (∀ p, get_post db post_id = some p →
        (delete_post post_id sess db).response = .redirectTo .getAllPosts
        ∧ (∀ q, q ∈ (delete_post post_id sess db).db.posts
            ↔ (q ∈ db.posts ∧ q.id ≠ post_id))
        ∧ (delete_post post_id sess db).db.posts.length + 1 = db.posts.length) := by
  constructor
  · intro h0
    refine ⟨?_, ?_⟩ <;>
      simp [delete_post, hcu, admin_required, hadmin, is_authenticated,
        delete_post_inner, h0]
  · intro p hp
    have hpid : p.id = post_id := by simpa using List.find?_some hp
    have hpm : p ∈ db.posts := List.mem_of_find?_eq_some hp
    have key : delete_post post_id sess db
        = ⟨.redirectTo .getAllPosts,
           { db with posts := db.posts.filter (fun q => !(q.id == p.id)),
                     comments := db.comments.map (detach_comment p.id) },
           sess, []⟩ := by
      simp [delete_post, hcu, admin_required, hadmin, is_authenticated,
        delete_post_inner, hp]
    rw [key]
    refine ⟨rfl, ?_, ?_⟩
    · intro q
      rw [hpid]
      constructor
      · intro hq
        have := List.of_mem_filter hq
        exact ⟨List.mem_of_mem_filter hq, by simpa using this⟩
      · intro ⟨hq, hqne⟩
        exact List.mem_filter.mpr ⟨hq, by simpa using hqne⟩
    · rw [hpid]
      exact length_filter_erase_id post_id db.posts hnd p hpm hpid

theorem C8_delete_post_witness :
    (get_post db1 5 = none
      ∧ (delete_post 5 (some 1) db1).response = .httpError 404
      ∧ (delete_post 5 (some 1) db1).db = db1)
    ∧ (get_post db1 1 = some post1
      ∧ (delete_post 1 (some 1) db1).response = .redirectTo .getAllPosts
      ∧ (∀ q, q ∈ (delete_post 1 (some 1) db1).db.posts ↔ (q ∈ db1.posts ∧ q.id ≠ 1))
      ∧ (delete_post 1 (some 1) db1).db.posts.length + 1 = db1.posts.length) :=
  ⟨⟨by decide,
    ((C8_delete_post 5 (some 1) db1 alice rfl rfl (by decide)).1 (by decide)).1,
    ((C8_delete_post 5 (some 1) db1 alice rfl rfl (by decide)).1 (by decide)).2⟩,
   ⟨by decide,
    ((C8_delete_post 1 (some 1) db1 alice rfl rfl (by decide)).2 post1 (by decide)).1,
    ((C8_delete_post 1 (some 1) db1 alice rfl rfl (by decide)).2 post1 (by decide)).2.1,
    ((C8_delete_post 1 (some 1) db1 alice rfl rfl (by decide)).2 post1 (by decide)).2.2⟩⟩

/-- Claim C10: deleting an existing post (as the administrator) does not
delete its Comment rows: the comments table keeps the same number of
rows, and every prior comment survives with identical identifier, text
and author; a comment that referenced the deleted post has its
`blogpost_id` reference detached (set to NULL), and any other comment's
reference is untouched. -/
theorem C10_delete_detaches_comments (post_id : Nat) (sess : Option Nat)
    (db : DB) (u : User) (p : BlogPost)
    (hcu : getCurrentUser db sess = .ok (.user u)) (hadmin : u.id = 1)
    (hp : get_post db post_id = some p)
    (_hhas : ∃ c ∈ db.comments, c.blogpost_id = some post_id) :
    (delete_post post_id sess db).db.comments.length = db.comments.length
    ∧ (∀ c ∈ db.comments, ∃ c' ∈ (delete_post post_id sess db).db.comments,
        c'.id = c.id ∧ c'.comment_text = c.comment_text ∧ c'.author_id = c.author_id
        ∧ (c.blogpost_id = some post_id → c'.blogpost_id = none)
        ∧ (c.blogpost_id ≠ some post_id → c'.blogpost_id = c.blogpost_id)) := by
  have hpid : p.id = post_id := by simpa using List.find?_some hp
  have key : delete_post post_id sess db
      = ⟨.redirectTo .getAllPosts,
         { db with posts := db.posts.filter (fun q => !(q.id == p.id)),
                   comments := db.comments.map (detach_comment p.id) },
         sess, []⟩ := by
    simp [delete_post, hcu, admin_required, hadmin, is_authenticated,
      delete_post_inner, hp]
  rw [key]
  refine ⟨by simp, ?_⟩
  intro c hc
  refine ⟨detach_comment p.id c, List.mem_map_of_mem (detach_comment p.id) hc, ?_⟩
  by_cases hcb : c.blogpost_id = some post_id
  · simp [detach_comment, hpid, hcb]
  · simp [detach_comment, hpid, hcb]

theorem C10_delete_detaches_comments_witness :
    get_post db1 1 = some post1
    ∧ (∃ c ∈ db1.comments, c.blogpost_id = some 1)
    ∧ ((delete_post 1 (some 1) db1).db.comments.length = db1.comments.length
      ∧ (∀ c ∈ db1.comments, ∃ c' ∈ (delete_post 1 (some 1) db1).db.comments,
          c'.id = c.id ∧ c'.comment_text = c.comment_text ∧ c'.author_id = c.author_id
          ∧ (c.blogpost_id = some 1 → c'.blogpost_id = none)
          ∧ (c.blogpost_id ≠ some 1 → c'.blogpost_id = c.blogpost_id))) :=
  ⟨by decide, ⟨comment1, by decide, rfl⟩,
   C10_delete_detaches_comments 1 (some 1) db1 alice post1 rfl rfl (by decide)
     ⟨comment1, by decide, rfl⟩⟩

end Blog
